import Mathlib

/-!
Verification of the budgetly backend's budget/dashboard computations.

The definitions below are a shallow embedding of the TypeScript source:
  * `src/routes/dashboard.ts` — the `budget-overview`, `daily-budget` and
    `daily-budget-history` route handlers (aggregation, daily allowance and
    history reconstruction logic);
  * the budgets router (`POST /budgets`, `PUT /budgets/:month`).

Modelling conventions:
  * Money amounts are rationals (`ℚ`); the JS code uses IEEE doubles, but the
    claims under study are about exact threshold/algebraic behaviour, and the
    special values NaN/±Infinity produced by division by zero are modelled
    explicitly by the `JsNum` type where the source performs an unguarded
    division (`budget-overview`'s `budgetUsedPercentage`).
  * A transaction is represented by its expense amount, its day-of-month
    (`new Date(t.date).getDate()`), and its category id.  The database queries
    in the handlers already restrict to `type = 'expense'` and to dates inside
    the target month, so the transaction lists fed to the definitions stand
    for the result of those queries; a date inside the month has
    `1 ≤ day ≤ daysInMonth`.
  * The `reduce`-by-category accumulations in the source are modelled as
    sums over category-filtered lists, and the day-range queries
    (`todayStart ≤ date ≤ todayEnd`) as day-equality filters.
-/

namespace Budgetly

/-- An expense transaction of the target month, as used by the dashboard
handlers: `amount` (positive decimal), `day` = day-of-month of its date,
`categoryId`. -/
structure Txn where
  amount : ℚ
  day : ℕ
  categoryId : ℕ
  deriving Repr, DecidableEq

/-- A stored category budget row: `{categoryId, budgetAmount}`. -/
structure CategoryBudget where
  categoryId : ℕ
  budgetAmount : ℚ
  deriving Repr, DecidableEq

/-- The good/warning/over classification used throughout the dashboard. -/
inductive Status where
  | good
  | warning
  | over
  deriving Repr, DecidableEq

/-- Sum of the amounts of a list of transactions (`reduce((sum, t) => sum + t.amount, 0)`). -/
def sumAmounts (ts : List Txn) : ℚ :=
  (ts.map (·.amount)).sum

/-- The transactions of a given day of the month (the `todayStart ≤ date ≤ todayEnd`
query / the `transactionsByDay[day]` bucket). -/
def txnsOnDay (ts : List Txn) (d : ℕ) : List Txn :=
  ts.filter (fun t => t.day = d)

/-- Spending on one calendar day. -/
def spentOnDay (ts : List Txn) (d : ℕ) : ℚ :=
  sumAmounts (txnsOnDay ts d)

/-- Spending dated strictly before day `d`
(`monthlyTransactions.filter(t => new Date(t.date).getDate() < day)`). -/
def spentBefore (ts : List Txn) (d : ℕ) : ℚ :=
  sumAmounts (ts.filter (fun t => t.day < d))

/-- The transactions of one category (the per-category `reduce` accumulators). -/
def catTxns (ts : List Txn) (c : ℕ) : List Txn :=
  ts.filter (fun t => t.categoryId = c)

/-- A JavaScript number that may be NaN or ±Infinity: the result of an
unguarded division.  Only the division-by-zero special values are needed;
all other arithmetic in the handlers stays finite. -/
inductive JsNum where
  | num : ℚ → JsNum
  | nan : JsNum
  | posInf : JsNum
  | negInf : JsNum
  deriving Repr, DecidableEq

/-- JavaScript division `a / b`: NaN on `0/0`, ±Infinity on `x/0` with `x ≠ 0`. -/
def jsDiv (a b : ℚ) : JsNum :=
  if b = 0 then
    if a = 0 then JsNum.nan
    else if 0 < a then JsNum.posInf
    else JsNum.negInf
  else JsNum.num (a / b)

/-- Multiplication of a JS number by a positive rational constant (the
`* 100` in the percentage computations; positivity of the constant keeps
the sign of the infinities). -/
def JsNum.mulPos (x : JsNum) (c : ℚ) : JsNum :=
  match x with
  | JsNum.num q => JsNum.num (q * c)
  | JsNum.nan => JsNum.nan
  | JsNum.posInf => JsNum.posInf
  | JsNum.negInf => JsNum.negInf

/-- `Math.round`: rounds a finite value half-up; NaN and ±Infinity pass through. -/
def JsNum.jsRound (x : JsNum) : JsNum :=
  match x with
  | JsNum.num q => JsNum.num (round q : ℤ)
  | JsNum.nan => JsNum.nan
  | JsNum.posInf => JsNum.posInf
  | JsNum.negInf => JsNum.negInf

/-- JavaScript `x >= c` for a possibly non-finite `x`: false on NaN,
true on +Infinity, false on -Infinity. -/
def JsNum.geq (x : JsNum) (c : ℚ) : Bool :=
  match x with
  | JsNum.num q => decide (c ≤ q)
  | JsNum.nan => false
  | JsNum.posInf => true
  | JsNum.negInf => false

/-- Whether a JS number is an ordinary finite value. -/
def JsNum.isFinite (x : JsNum) : Bool :=
  match x with
  | JsNum.num _ => true
  | _ => false

/-- The percentage-based status of `budget-overview` (dashboard.ts lines
326–328): `over` if `percentage >= 100`, `warning` if `percentage >= 80`,
else `good`. -/
def percentStatus (percentage : ℚ) : Status :=
  if 100 ≤ percentage then Status.over
  else if 80 ≤ percentage then Status.warning
  else Status.good

/-- The overall `budget-overview` status (dashboard.ts line 350), applied to
the possibly non-finite `budgetUsedPercentage`:
`budgetUsedPercentage >= 100 ? 'over' : budgetUsedPercentage >= 80 ? 'warning' : 'good'`. -/
def jsPercentStatus (p : JsNum) : Status :=
  if p.geq 100 then Status.over
  else if p.geq 80 then Status.warning
  else Status.good

/-- The spending-vs-limit status used by the daily allowance and the history
handlers (dashboard.ts lines 472–477, 496–501, 638–643, 658–663):
`over` if `spent > limit`, `warning` if `spent > limit * 0.8`, else `good`. -/
def dailyStatus (spent limit : ℚ) : Status :=
  if limit < spent then Status.over
  else if limit * (8 / 10) < spent then Status.warning
  else Status.good

/-- One row of the `budget-overview` per-category array (dashboard.ts
lines 321–341). -/
structure CatOverview where
  categoryId : ℕ
  budgetAmount : ℚ
  spent : ℚ
  remaining : ℚ
  percentage : ℤ
  status : Status
  deriving Repr, DecidableEq

/-- The `budget-overview` response body (dashboard.ts lines 343–353),
restricted to the computed numeric fields. -/
structure OverviewPayload where
  totalBudget : ℚ
  totalSpent : ℚ
  remainingBudget : ℚ
  budgetUsedPercentage : JsNum
  status : Status
  categoryBudgets : List CatOverview
  deriving Repr, DecidableEq

/-- The `GET /dashboard/budget-overview` computation (dashboard.ts
lines 306–353) on a found budget: `txns` is the month's expense-transaction
query result.  `budgetUsedPercentage = (totalSpent / totalBudget) * 100` is
an unguarded division; the per-category `percentage` is guarded by
`cb.budgetAmount > 0 ? … : 0`. -/
def budgetOverview (totalBudget : ℚ) (cbs : List CategoryBudget) (txns : List Txn) :
    OverviewPayload :=
  let totalSpent := sumAmounts txns
  let remainingBudget := totalBudget - totalSpent
  let budgetUsedPercentage := (jsDiv totalSpent totalBudget).mulPos 100
  let categoryRows := cbs.map (fun cb =>
    let spent := sumAmounts (catTxns txns cb.categoryId)
    let remaining := cb.budgetAmount - spent
    let percentage : ℚ := if 0 < cb.budgetAmount then spent / cb.budgetAmount * 100 else 0
    { categoryId := cb.categoryId
      budgetAmount := cb.budgetAmount
      spent := spent
      remaining := remaining
      percentage := round percentage
      status := percentStatus percentage })
  { totalBudget := totalBudget
    totalSpent := totalSpent
    remainingBudget := remainingBudget
    budgetUsedPercentage := budgetUsedPercentage.jsRound
    status := jsPercentStatus budgetUsedPercentage
    categoryBudgets := categoryRows }

/-- One row of the `daily-budget` per-category array (dashboard.ts
lines 463–493). -/
structure CatDailyBudget where
  categoryId : ℕ
  totalBudget : ℚ
  monthlySpent : ℚ
  remainingBudget : ℚ
  originalDailyLimit : ℚ
  adjustedDailyLimit : ℚ
  todaySpent : ℚ
  todayRemaining : ℚ
  status : Status
  deriving Repr, DecidableEq

/-- The `daily-budget` response body (dashboard.ts lines 503–519),
restricted to the computed fields. -/
structure DailyBudgetPayload where
  currentDay : ℕ
  daysInMonth : ℕ
  remainingDaysInMonth : ℤ
  totalBudget : ℚ
  totalSpentThisMonth : ℚ
  remainingBudget : ℚ
  originalDailyLimit : ℚ
  adjustedDailyLimit : ℚ
  todaySpent : ℚ
  todayRemaining : ℚ
  overallStatus : Status
  categoryDailyBudgets : List CatDailyBudget
  deriving Repr, DecidableEq

/-- The `GET /dashboard/daily-budget` computation (dashboard.ts
lines 389–519).  `monthTxns` is the month's expense-transaction query result;
the separate today-range query is the day-`currentDay` subset of it.
`remainingBudget = totalBudget − totalSpentThisMonth` subtracts the WHOLE
month's spending (the `monthlyTransactions` sum, today's and later-dated
transactions included), and `adjustedDailyLimit = remainingBudget /
remainingDaysInMonth` with `remainingDaysInMonth = daysInMonth − currentDay + 1`.
The reported limits are clamped at 0 (`Math.max(0, …)`); the statuses compare
against the unclamped value. -/
def dailyBudget (totalBudget : ℚ) (cbs : List CategoryBudget) (monthTxns : List Txn)
    (currentDay daysInMonth : ℕ) : DailyBudgetPayload :=
  let todayTxns := txnsOnDay monthTxns currentDay
  let remainingDaysInMonth : ℤ := (daysInMonth : ℤ) - currentDay + 1
  let totalSpentThisMonth := sumAmounts monthTxns
  let totalSpentToday := sumAmounts todayTxns
  let remainingBudget := totalBudget - totalSpentThisMonth
  let dailyBudgetLimit := totalBudget / (daysInMonth : ℚ)
  let adjustedDailyLimit := remainingBudget / (remainingDaysInMonth : ℚ)
  let categoryRows := cbs.map (fun cb =>
    let monthlySpent := sumAmounts (catTxns monthTxns cb.categoryId)
    let todaySpent := sumAmounts (catTxns todayTxns cb.categoryId)
    let remainingCategoryBudget := cb.budgetAmount - monthlySpent
    let originalDailyLimit := cb.budgetAmount / (daysInMonth : ℚ)
    let catAdjusted := remainingCategoryBudget / (remainingDaysInMonth : ℚ)
    { categoryId := cb.categoryId
      totalBudget := cb.budgetAmount
      monthlySpent := monthlySpent
      remainingBudget := remainingCategoryBudget
      originalDailyLimit := originalDailyLimit
      adjustedDailyLimit := max 0 catAdjusted
      todaySpent := todaySpent
      todayRemaining := max 0 (catAdjusted - todaySpent)
      status := dailyStatus todaySpent catAdjusted })
  { currentDay := currentDay
    daysInMonth := daysInMonth
    remainingDaysInMonth := remainingDaysInMonth
    totalBudget := totalBudget
    totalSpentThisMonth := totalSpentThisMonth
    remainingBudget := remainingBudget
    originalDailyLimit := dailyBudgetLimit
    adjustedDailyLimit := max 0 adjustedDailyLimit
    todaySpent := totalSpentToday
    todayRemaining := max 0 (adjustedDailyLimit - totalSpentToday)
    overallStatus := dailyStatus totalSpentToday adjustedDailyLimit
    categoryDailyBudgets := categoryRows }

/-- One entry of a history day's `categoryBreakdown` (dashboard.ts
lines 632–655). -/
structure CatDayEntry where
  categoryId : ℕ
  dailyLimit : ℚ
  spent : ℚ
  remaining : ℚ
  status : Status
  deriving Repr, DecidableEq

/-- One `dailyData` entry of the history response (dashboard.ts
lines 665–676); the formatted `date` string is omitted. -/
structure DayEntry where
  day : ℕ
  isToday : Bool
  isPastDay : Bool
  dailyLimit : ℚ
  actualSpent : ℚ
  remaining : ℚ
  status : Status
  transactionCount : ℕ
  categoryBreakdown : List CatDayEntry
  deriving Repr, DecidableEq

/-- The body of the per-day loop of `daily-budget-history` (dashboard.ts
lines 608–677) for one `day`.  `currentDay` is the loop-independent value
`isCurrentMonth ? currentDate.getDate() : daysInMonth`.  Note the per-category
`dailyLimit` is the FLAT `cb.budgetAmount / daysInMonth` (line 634), not
re-balanced, and the day's `adjustedDailyLimit` uses spending dated strictly
before `day` (lines 616–621). -/
def historyDayEntry (totalBudget : ℚ) (cbs : List CategoryBudget) (txns : List Txn)
    (daysInMonth : ℕ) (isCurrentMonth : Bool) (todayDay currentDay day : ℕ) : DayEntry :=
  let dayTxns := txnsOnDay txns day
  let actualSpent := sumAmounts dayTxns
  let isToday := isCurrentMonth && day == todayDay
  let isPastDay := decide (day ≤ currentDay)
  let daysElapsed : ℤ := (day : ℤ) - 1
  let spentSoFar := spentBefore txns day
  let remainingBudget := totalBudget - spentSoFar
  let remainingDays : ℤ := (daysInMonth : ℤ) - daysElapsed
  let originalDailyLimit := totalBudget / (daysInMonth : ℚ)
  let adjustedDailyLimit :=
    if 0 < remainingDays then remainingBudget / (remainingDays : ℚ) else originalDailyLimit
  let categoryBreakdown :=
    (cbs.map (fun cb =>
      let categoryDailyLimit := cb.budgetAmount / (daysInMonth : ℚ)
      let categorySpentToday := sumAmounts (catTxns dayTxns cb.categoryId)
      { categoryId := cb.categoryId
        dailyLimit := categoryDailyLimit
        spent := categorySpentToday
        remaining := categoryDailyLimit - categorySpentToday
        status := dailyStatus categorySpentToday categoryDailyLimit
        : CatDayEntry })).filter (fun e => decide (0 < e.spent) || decide (0 < e.dailyLimit))
  { day := day
    isToday := isToday
    isPastDay := isPastDay
    dailyLimit := adjustedDailyLimit
    actualSpent := actualSpent
    remaining := adjustedDailyLimit - actualSpent
    status := dailyStatus actualSpent adjustedDailyLimit
    transactionCount := dayTxns.length
    categoryBreakdown := categoryBreakdown }

/-- The numeric part of the `daily-budget-history` response body
(dashboard.ts lines 683–691). -/
structure HistoryPayload where
  totalBudget : ℚ
  totalSpent : ℚ
  averageDailySpent : ℚ
  originalDailyLimit : ℚ
  dailyData : List DayEntry
  deriving Repr, DecidableEq

/-- The `daily-budget-history` computation on a found budget (dashboard.ts
lines 569–691): one `historyDayEntry` per day 1..daysInMonth, plus the
`pastDays`/`averageDailySpent` aggregation (lines 679–681). -/
def dailyBudgetHistory (totalBudget : ℚ) (cbs : List CategoryBudget) (txns : List Txn)
    (daysInMonth : ℕ) (isCurrentMonth : Bool) (todayDay : ℕ) : HistoryPayload :=
  let currentDay := if isCurrentMonth then todayDay else daysInMonth
  let totalSpent := sumAmounts txns
  let originalDailyLimit := totalBudget / (daysInMonth : ℚ)
  let dailyData := (List.range daysInMonth).map (fun i =>
    historyDayEntry totalBudget cbs txns daysInMonth isCurrentMonth todayDay currentDay (i + 1))
  let pastDays := (dailyData.filter (fun d => d.isPastDay && !d.isToday)).length
    + (if dailyData.any (·.isToday) then 1 else 0)
  let averageDailySpent := if 0 < pastDays then totalSpent / (pastDays : ℚ) else 0
  { totalBudget := totalBudget
    totalSpent := totalSpent
    averageDailySpent := averageDailySpent
    originalDailyLimit := originalDailyLimit
    dailyData := dailyData }

/-- The full HTTP response of `GET /dashboard/daily-budget-history`:
status code, optional embedded error message, and payload. -/
structure HistoryResponse where
  httpStatus : ℕ
  error : Option String
  payload : HistoryPayload
  deriving Repr, DecidableEq

/-- The `daily-budget-history` route handler (dashboard.ts lines 527–696).
`budget` is the result of the budget lookup for the requested month
(`none` = no stored budget).  When the budget is absent the handler responds
`res.json({error: …, totalBudget: 0, …, dailyData: []})` — HTTP 200 with a
zeroed payload (lines 555–567).  Otherwise `isCurrentMonth` compares the
requested year/month with the real current date (line 605) and `todayDay`
is `currentDate.getDate()`.  `daysInMonth` is the day count the JS `Date`
library computes for the requested month. -/
def dailyBudgetHistoryRoute (budget : Option (ℚ × List CategoryBudget)) (txns : List Txn)
    (targetYear targetMonth currentYear currentMonth todayDay daysInMonth : ℕ) :
    HistoryResponse :=
  match budget with
  | none =>
      { httpStatus := 200
        error := some "No budget found for the specified month"
        payload :=
          { totalBudget := 0
            totalSpent := 0
            averageDailySpent := 0
            originalDailyLimit := 0
            dailyData := [] } }
  | some (totalBudget, cbs) =>
      let isCurrentMonth := targetYear == currentYear && targetMonth == currentMonth
      { httpStatus := 200
        error := none
        payload := dailyBudgetHistory totalBudget cbs txns daysInMonth isCurrentMonth todayDay }

/-- A stored `Budget` row together with its `CategoryBudget` rows. -/
structure StoredBudget where
  userId : ℕ
  month : String
  totalBudget : ℚ
  categoryBudgets : List CategoryBudget
  deriving Repr, DecidableEq

/-- Outcome of a budgets-router request: HTTP 400 with a message, HTTP 404,
or success. -/
inductive RouteResult where
  | badRequest : String → RouteResult
  | notFound : RouteResult
  | ok : RouteResult
  deriving Repr, DecidableEq

/-- The `POST /budgets` handler (budgets router, lines 124–196).
`owned` is the caller's list of category ids (distinct database primary
keys); the `prisma.category.findMany {id ∈ categoryIds, userId}` result is
modelled as `owned.filter (· ∈ categoryIds)` and the handler rejects when its
length differs from `categoryIds.length`.  It then rejects when
`totalCategoryBudget > totalBudget`, and otherwise (inside one transaction)
deletes any existing budget for `(userId, month)` and creates the new one. -/
def createBudget (owned : List ℕ) (store : List StoredBudget) (userId : ℕ)
    (month : String) (totalBudget : ℚ) (categoryBudgets : List CategoryBudget) :
    RouteResult × List StoredBudget :=
  let categoryIds := categoryBudgets.map (·.categoryId)
  let userCategories := owned.filter (fun c => decide (c ∈ categoryIds))
  if userCategories.length ≠ categoryIds.length then
    (RouteResult.badRequest "Some categories do not exist or do not belong to user", store)
  else
    let totalCategoryBudget := (categoryBudgets.map (·.budgetAmount)).sum
    if totalBudget < totalCategoryBudget then
      (RouteResult.badRequest "Sum of category budgets cannot exceed total budget", store)
    else
      let store' := store.filter (fun b => !(b.userId == userId && b.month == month))
      (RouteResult.ok,
        store' ++ [{ userId := userId, month := month, totalBudget := totalBudget,
                     categoryBudgets := categoryBudgets }])

/-- The `PUT /budgets/:month` handler (budgets router, lines 199–291).
404 when no budget exists for `(userId, month)`.  When a `categoryBudgets`
array is supplied, only category OWNERSHIP is validated (same
`findMany`-length check as the create path) — there is no check of the
category sum against `totalBudget`.  The update then patches `totalBudget`
(when supplied) and replaces the category-budget rows (delete-all then
create-all, when supplied). -/
def updateBudget (owned : List ℕ) (store : List StoredBudget) (userId : ℕ)
    (month : String) (totalBudget : Option ℚ)
    (categoryBudgets : Option (List CategoryBudget)) :
    RouteResult × List StoredBudget :=
  match store.find? (fun b => b.userId == userId && b.month == month) with
  | none => (RouteResult.notFound, store)
  | some existing =>
      let ownershipOk : Bool :=
        match categoryBudgets with
        | none => true
        | some cbs =>
            let categoryIds := cbs.map (fun cb => cb.categoryId)
            (owned.filter (fun c => decide (c ∈ categoryIds))).length == categoryIds.length
      if ownershipOk then
        let newTotal := totalBudget.getD existing.totalBudget
        let newCbs := categoryBudgets.getD existing.categoryBudgets
        (RouteResult.ok,
          store.map (fun (b : StoredBudget) =>
            if b.userId == userId && b.month == month then
              { b with totalBudget := newTotal, categoryBudgets := newCbs }
            else b))
      else
        (RouteResult.badRequest "Some categories do not exist or do not belong to user", store)

/-! ### Helper lemmas -/

/-- Indexing the history's `dailyData`: entry `d - 1` (0-based) is the
day-`d` entry produced by the per-day loop. -/
theorem history_dailyData_get (tb : ℚ) (cbs : List CategoryBudget) (txns : List Txn)
    (n : ℕ) (cur : Bool) (today d : ℕ) (h1 : 1 ≤ d) (h2 : d ≤ n) :
    (dailyBudgetHistory tb cbs txns n cur today).dailyData[d - 1]?
      = some (historyDayEntry tb cbs txns n cur today (if cur then today else n) d) := by
  have hd : d - 1 < n := by omega
  have hd1 : d - 1 + 1 = d := by omega
  simp only [dailyBudgetHistory]
  rw [List.getElem?_map, List.getElem?_range hd]
  simp only [Option.map_some', hd1]

/-- The day-`d` loop body takes the positive-`remainingDays` branch and its
`adjustedDailyLimit` is `(totalBudget − spentBefore txns d) / (n − d + 1)`. -/
theorem historyDayEntry_dailyLimit (tb : ℚ) (cbs : List CategoryBudget) (txns : List Txn)
    (n : ℕ) (cur : Bool) (today cd d : ℕ) (h2 : d ≤ n) :
    (historyDayEntry tb cbs txns n cur today cd d).dailyLimit
      = (tb - spentBefore txns d) / ((n : ℚ) - d + 1) := by
  have hpos : (0 : ℤ) < (n : ℤ) - ((d : ℤ) - 1) := by omega
  have hcast : ((((n : ℤ) - ((d : ℤ) - 1)) : ℤ) : ℚ) = (n : ℚ) - d + 1 := by
    push_cast
    ring
  simp only [historyDayEntry, if_pos hpos, hcast]

theorem sumAmounts_cons (t : Txn) (ts : List Txn) :
    sumAmounts (t :: ts) = t.amount + sumAmounts ts := by
  simp [sumAmounts]

theorem spentOnDay_cons (t : Txn) (ts : List Txn) (d : ℕ) :
    spentOnDay (t :: ts) d = (if t.day = d then t.amount else 0) + spentOnDay ts d := by
  by_cases h : t.day = d <;>
    simp [spentOnDay, txnsOnDay, sumAmounts, h, List.filter_cons]

theorem sum_map_add_q (l : List ℕ) (f g : ℕ → ℚ) :
    (l.map (fun x => f x + g x)).sum = (l.map f).sum + (l.map g).sum := by
  induction l with
  | nil => simp
  | cons x xs ih =>
      simp only [List.map_cons, List.sum_cons, ih]
      ring

/-- A transaction's amount is picked up by exactly one of the day buckets
1..n when its day lies in that range. -/
theorem sum_indicator_range (t : Txn) (n : ℕ) (h1 : 1 ≤ t.day) (h2 : t.day ≤ n) :
    ((List.range n).map (fun i => if t.day = i + 1 then t.amount else 0)).sum
      = t.amount := by
  induction n with
  | zero => omega
  | succ m ih =>
      rw [List.range_succ, List.map_append, List.sum_append]
      by_cases hd : t.day = m + 1
      · have hpre : ((List.range m).map
            (fun i => if t.day = i + 1 then t.amount else 0)).sum = 0 := by
          apply List.sum_eq_zero
          intro x hx
          obtain ⟨i, hi, rfl⟩ := List.mem_map.mp hx
          have := List.mem_range.mp hi
          rw [if_neg (by omega)]
        rw [hpre]
        simp [hd]
      · have hle : t.day ≤ m := by omega
        rw [ih hle]
        simp [hd]

/-- Bucketing by calendar day partitions the month's transactions: the sum of
the per-day spends over days 1..n is the total spend, provided every
transaction's day lies in 1..n. -/
theorem sum_spentOnDay_range (txns : List Txn) (n : ℕ)
    (h : ∀ t ∈ txns, 1 ≤ t.day ∧ t.day ≤ n) :
    ((List.range n).map (fun i => spentOnDay txns (i + 1))).sum = sumAmounts txns := by
  induction txns with
  | nil => simp [spentOnDay, txnsOnDay, sumAmounts]
  | cons t ts ih =>
      have ht := h t (List.mem_cons_self t ts)
      have hts : ∀ x ∈ ts, 1 ≤ x.day ∧ x.day ≤ n :=
        fun x hx => h x (List.mem_cons_of_mem _ hx)
      simp only [spentOnDay_cons]
      rw [sum_map_add_q, ih hts, sum_indicator_range t n ht.1 ht.2, sumAmounts_cons]

/-! ### Claim theorems -/

/-- C8: a `daily-budget-history` request for a month with no stored budget
returns HTTP 200 with a zeroed payload (totalBudget 0, totalSpent 0,
averageDailySpent 0, originalDailyLimit 0, empty dailyData) and an embedded
error message, never an HTTP error status. -/
theorem history_no_budget_zeroed (txns : List Txn)
    (targetYear targetMonth currentYear currentMonth todayDay daysInMonth : ℕ) :
    dailyBudgetHistoryRoute none txns targetYear targetMonth currentYear currentMonth
        todayDay daysInMonth
      = { httpStatus := 200
          error := some "No budget found for the specified month"
          payload :=
            { totalBudget := 0
              totalSpent := 0
              averageDailySpent := 0
              originalDailyLimit := 0
              dailyData := [] } } := rfl

/-- C1 counterexample: in the `daily-budget` endpoint (totalBudget 2,
daysInMonth 2, today = day 1, a single expense of 2 dated today), the
claimed formula `(totalBudget − spentStrictlyBefore(1)) / (2 − 1 + 1)`
gives 1, but the endpoint subtracts the whole month's spending (today's
included) and reports `adjustedDailyLimit = 0`. -/
theorem daily_budget_subtracts_today_cex :
    (dailyBudget 2 [] [⟨2, 1, 1⟩] 1 2).adjustedDailyLimit = 0
    ∧ (2 - spentBefore [⟨2, 1, 1⟩] 1) / ((2 : ℚ) - 1 + 1) = 1
    ∧ (0 : ℚ) ≠ 1 := by
  refine ⟨?_, by norm_num [spentBefore, sumAmounts], by norm_num⟩
  norm_num [dailyBudget, sumAmounts, txnsOnDay, spentBefore, catTxns]

/-- C2 counterexample: a history day whose spending is exactly 80% of its
adjusted daily limit (80 spent against a limit of 100) is classified `good`,
not `warning`: the daily/history statuses use strict `>` comparisons, unlike
the percentage-based `>=` thresholds of the month overview. -/
theorem status_boundary_cex :
    ((dailyBudgetHistory 100 [] [⟨80, 1, 1⟩] 1 false 1).dailyData.map
        (fun e => (e.actualSpent, e.dailyLimit, e.status)))
      = [(80, 100, Status.good)]
    ∧ (80 : ℚ) = 100 * (8 / 10)
    ∧ Status.good ≠ Status.warning := by
  refine ⟨?_, by norm_num, by decide⟩
  norm_num [dailyBudgetHistory, historyDayEntry, sumAmounts, txnsOnDay, spentBefore,
    catTxns, dailyStatus, List.range_succ, List.range_zero, Function.comp]

/-- C3 counterexample: in the month history (category budget 2,
daysInMonth 2, a single category-1 expense of 2 on day 1), the day-2
`categoryBreakdown` entry carries the FLAT per-category limit `2 / 2 = 1`,
not the claimed re-balanced `(2 − 2) / (2 − 2 + 1) = 0`. -/
theorem category_breakdown_not_rebalanced_cex :
    ((dailyBudgetHistory 2 [⟨1, 2⟩] [⟨2, 1, 1⟩] 2 false 2).dailyData.map
        (fun e => e.categoryBreakdown.map (fun c => (c.categoryId, c.dailyLimit))))[1]?
      = some [(1, 1)]
    ∧ ((2 : ℚ) - 2) / ((2 : ℚ) - 2 + 1) = 0
    ∧ (1 : ℚ) ≠ 0 := by
  refine ⟨?_, by norm_num, by norm_num⟩
  norm_num [dailyBudgetHistory, historyDayEntry, sumAmounts, txnsOnDay, spentBefore,
    catTxns, dailyStatus, List.range_succ, List.range_zero, Function.comp]

/-- C4 counterexample: with totalBudget 2, daysInMonth 2 and no
transactions at all, the day-2 history entry has
`adjustedDailyLimit = 2 / (2 − 2 + 1) = 2`, not the flat average
`2 / 2 = 1`: the no-prior-spending limit equals the flat average only on
day 1. -/
theorem flat_average_only_day_one_cex :
    ((dailyBudgetHistory 2 [] [] 2 false 2).dailyData.map
        (fun e => (e.day, e.dailyLimit)))[1]?
      = some (2, 2)
    ∧ (2 : ℚ) ≠ 2 / 2 := by
  refine ⟨?_, by norm_num⟩
  norm_num [dailyBudgetHistory, historyDayEntry, sumAmounts, txnsOnDay, spentBefore,
    catTxns, dailyStatus, List.range_succ, List.range_zero, Function.comp]

/-- C6 counterexample: with `totalBudget = 0` (and no spending) the
month-overview's `budgetUsedPercentage = (totalSpent / totalBudget) * 100`
evaluates to NaN — an unguarded division, not a defined value; with positive
spending it is +Infinity. -/
theorem used_percentage_nan_cex :
    (budgetOverview 0 [] []).budgetUsedPercentage = JsNum.nan
    ∧ (budgetOverview 0 [] [⟨5, 2, 1⟩]).budgetUsedPercentage = JsNum.posInf
    ∧ JsNum.nan.isFinite = false
    ∧ JsNum.posInf.isFinite = false := by
  refine ⟨?_, ?_, rfl, rfl⟩
  · norm_num [budgetOverview, jsDiv, sumAmounts, catTxns, JsNum.mulPos, JsNum.jsRound]
  · norm_num [budgetOverview, jsDiv, sumAmounts, catTxns, JsNum.mulPos, JsNum.jsRound]

/-- C7 counterexample: a request for month 2025-11 while the real current
month is 2025-10 (a strictly future month) is not rejected (HTTP 200) and
every one of its 30 days is classified as past (`isPastDay = true`),
because the handler defaults `currentDay` to `daysInMonth` for any
non-current month. -/
theorem future_month_marked_past_cex :
    (dailyBudgetHistoryRoute (some (30, [])) [] 2025 11 2025 10 15 30).httpStatus = 200
    ∧ ((dailyBudgetHistoryRoute (some (30, [])) [] 2025 11 2025 10 15 30).payload.dailyData.all
        (fun e => e.isPastDay)) = true
    ∧ (dailyBudgetHistoryRoute (some (30, [])) [] 2025 11 2025 10 15
        30).payload.dailyData.length = 30 := by
  refine ⟨rfl, by decide, by decide⟩

/-- C2 (amended): the two status families use different boundaries.  The
month-overview statuses (overall and per-category) classify a percentage with
inclusive thresholds: `over` iff percentage ≥ 100, `warning` iff
80 ≤ percentage < 100, `good` iff percentage < 80.  The daily-allowance and
history statuses compare spending against the limit strictly: `over` iff
spending > limit, `warning` iff 80% of the limit < spending ≤ limit — so
there, spending exactly 80% of the limit is `good` and exactly 100% is
`warning`. -/
theorem status_threshold_characterization :
    (∀ p : ℚ, (percentStatus p = Status.over ↔ 100 ≤ p)
      ∧ (percentStatus p = Status.warning ↔ 80 ≤ p ∧ p < 100)
      ∧ (percentStatus p = Status.good ↔ p < 80))
    ∧ (∀ spent limit : ℚ,
        (dailyStatus spent limit = Status.over ↔ limit < spent)
      ∧ (dailyStatus spent limit = Status.warning ↔ limit * (8 / 10) < spent ∧ spent ≤ limit)
      ∧ (dailyStatus spent limit = Status.good ↔ spent ≤ limit ∧ spent ≤ limit * (8 / 10))) := by
  constructor
  · intro p
    unfold percentStatus
    split_ifs with h1 h2
    · exact ⟨iff_of_true rfl h1,
        iff_of_false (by decide) (fun h => absurd h1 (not_le.mpr h.2)),
        iff_of_false (by decide) (not_lt.mpr (le_trans (by norm_num) h1))⟩
    · exact ⟨iff_of_false (by decide) h1,
        iff_of_true rfl ⟨h2, not_le.mp h1⟩,
        iff_of_false (by decide) (not_lt.mpr h2)⟩
    · exact ⟨iff_of_false (by decide) h1,
        iff_of_false (by decide) (fun h => h2 h.1),
        iff_of_true rfl (not_le.mp h2)⟩
  · intro s l
    unfold dailyStatus
    split_ifs with h1 h2
    · exact ⟨iff_of_true rfl h1,
        iff_of_false (by decide) (fun h => absurd h1 (not_lt.mpr h.2)),
        iff_of_false (by decide) (fun h => absurd h1 (not_lt.mpr h.1))⟩
    · exact ⟨iff_of_false (by decide) h1,
        iff_of_true rfl ⟨h2, not_lt.mp h1⟩,
        iff_of_false (by decide) (fun h => absurd h2 (not_lt.mpr h.2))⟩
    · exact ⟨iff_of_false (by decide) h1,
        iff_of_false (by decide) (fun h => h2 h.1),
        iff_of_true rfl ⟨not_lt.mp h1, not_lt.mp h2⟩⟩

/-- Witness for the status characterization at concrete boundary inputs:
a percentage of exactly 80 is `warning` in the overview family, while
spending of exactly 80 against a limit of 100 is `good` in the daily
family. -/
theorem status_threshold_characterization_witness :
    percentStatus 80 = Status.warning ∧ dailyStatus 80 100 = Status.good :=
  ⟨(status_threshold_characterization.1 80).2.1.mpr ⟨le_refl 80, by norm_num⟩,
   (status_threshold_characterization.2 80 100).2.2.mpr ⟨by norm_num, by norm_num⟩⟩

/-- C6 (amended): the per-category overview percentage is special-cased
(0 when the category's `budgetAmount` is 0, giving status `good`), but the
month-overview's `budgetUsedPercentage` is an unguarded division: it is a
finite value exactly when `totalBudget ≠ 0`, and NaN or ±Infinity when
`totalBudget = 0`. -/
theorem used_percentage_definedness (tb : ℚ) (cbs : List CategoryBudget) (txns : List Txn) :
    ((budgetOverview tb cbs txns).budgetUsedPercentage.isFinite = true ↔ tb ≠ 0)
    ∧ (∀ cb ∈ cbs, cb.budgetAmount = 0 →
        ∃ row ∈ (budgetOverview tb cbs txns).categoryBudgets,
          row.categoryId = cb.categoryId ∧ row.percentage = 0 ∧ row.status = Status.good) := by
  constructor
  · by_cases htb : tb = 0
    · subst htb
      simp only [budgetOverview, jsDiv, if_pos rfl]
      split_ifs <;> simp [JsNum.mulPos, JsNum.jsRound, JsNum.isFinite]
    · simp [budgetOverview, jsDiv, htb, JsNum.mulPos, JsNum.jsRound, JsNum.isFinite]
  · intro cb hcb h0
    refine ⟨_, List.mem_map_of_mem _ hcb, rfl, ?_, ?_⟩
    · norm_num [h0]
    · norm_num [h0, percentStatus]

/-- Witness for `used_percentage_definedness` at `totalBudget = 0` with one
zero-amount category budget. -/
theorem used_percentage_definedness_witness :
    (budgetOverview 0 [⟨3, 0⟩] []).budgetUsedPercentage.isFinite ≠ true
    ∧ ∃ row ∈ (budgetOverview 0 [⟨3, 0⟩] []).categoryBudgets,
        row.categoryId = 3 ∧ row.percentage = 0 ∧ row.status = Status.good := by
  refine ⟨fun h => ?_, ?_⟩
  · exact absurd ((used_percentage_definedness 0 [⟨3, 0⟩] []).1.mp h) (by norm_num)
  · exact (used_percentage_definedness 0 [⟨3, 0⟩] []).2 ⟨3, 0⟩
      (List.mem_singleton.mpr rfl) rfl

/-- C1 (amended): the history endpoint's day-`d` adjusted limit is
`(totalBudget − spentStrictlyBefore(d)) / (daysInMonth − d + 1)`, but the
`daily-budget` endpoint subtracts the whole month's spending (today's and
later-dated expenses included) from the budget before dividing by the
remaining days — at both whole-budget and per-category granularity, with the
reported value clamped at 0. -/
theorem adjusted_limit_formulas (tb : ℚ) (cbs : List CategoryBudget) (txns : List Txn)
    (n currentDay today d : ℕ) (cur : Bool) (h1 : 1 ≤ d) (h2 : d ≤ n) :
    (∃ e, (dailyBudgetHistory tb cbs txns n cur today).dailyData[d - 1]? = some e
        ∧ e.dailyLimit = (tb - spentBefore txns d) / ((n : ℚ) - d + 1))
    ∧ (dailyBudget tb cbs txns currentDay n).adjustedDailyLimit
        = max 0 ((tb - sumAmounts txns) / ((n : ℚ) - currentDay + 1))
    ∧ (∀ cb ∈ cbs, ∃ row ∈ (dailyBudget tb cbs txns currentDay n).categoryDailyBudgets,
        row.categoryId = cb.categoryId
        ∧ row.adjustedDailyLimit
            = max 0 ((cb.budgetAmount - sumAmounts (catTxns txns cb.categoryId))
                / ((n : ℚ) - currentDay + 1))) := by
  have hcast : (((n : ℤ) - (currentDay : ℤ) + 1 : ℤ) : ℚ) = (n : ℚ) - currentDay + 1 := by
    push_cast
    ring
  refine ⟨⟨_, history_dailyData_get tb cbs txns n cur today d h1 h2,
      historyDayEntry_dailyLimit tb cbs txns n cur today _ d h2⟩, ?_, ?_⟩
  · simp [dailyBudget, hcast]
  · intro cb hcb
    refine ⟨_, List.mem_map_of_mem _ hcb, rfl, ?_⟩
    simp [hcast]

/-- Witness for `adjusted_limit_formulas` on a concrete two-day month with a
single day-1 expense. -/
theorem adjusted_limit_formulas_witness :
    (∃ e, (dailyBudgetHistory 2 [⟨1, 2⟩] [⟨2, 1, 1⟩] 2 false 1).dailyData[1 - 1]? = some e
        ∧ e.dailyLimit = (2 - spentBefore [⟨2, 1, 1⟩] 1) / ((2 : ℚ) - 1 + 1))
    ∧ (dailyBudget 2 [⟨1, 2⟩] [⟨2, 1, 1⟩] 1 2).adjustedDailyLimit
        = max 0 ((2 - sumAmounts [⟨2, 1, 1⟩]) / ((2 : ℚ) - 1 + 1))
    ∧ (∀ cb ∈ [(⟨1, 2⟩ : CategoryBudget)],
        ∃ row ∈ (dailyBudget 2 [⟨1, 2⟩] [⟨2, 1, 1⟩] 1 2).categoryDailyBudgets,
          row.categoryId = cb.categoryId
          ∧ row.adjustedDailyLimit
              = max 0 ((cb.budgetAmount - sumAmounts (catTxns [⟨2, 1, 1⟩] cb.categoryId))
                  / ((2 : ℚ) - 1 + 1))) :=
  adjusted_limit_formulas 2 [⟨1, 2⟩] [⟨2, 1, 1⟩] 2 1 1 1 false (by norm_num) (by norm_num)

/-- C3 (amended): every history `categoryBreakdown` entry of day `d` carries
the FLAT per-category limit `budgetAmount / daysInMonth` (not re-balanced)
and that day's spend in the category, and the breakdown contains exactly the
budgeted categories with positive spend or positive flat daily limit. -/
theorem category_breakdown_members (tb : ℚ) (cbs : List CategoryBudget) (txns : List Txn)
    (n today d : ℕ) (cur : Bool) (h1 : 1 ≤ d) (h2 : d ≤ n) :
    ∃ e, (dailyBudgetHistory tb cbs txns n cur today).dailyData[d - 1]? = some e
      ∧ (∀ c ∈ e.categoryBreakdown, ∃ cb ∈ cbs,
          c.categoryId = cb.categoryId
          ∧ c.dailyLimit = cb.budgetAmount / (n : ℚ)
          ∧ c.spent = sumAmounts (catTxns (txnsOnDay txns d) cb.categoryId)
          ∧ (0 < c.spent ∨ 0 < c.dailyLimit))
      ∧ (∀ cb ∈ cbs,
          (0 < sumAmounts (catTxns (txnsOnDay txns d) cb.categoryId)
            ∨ 0 < cb.budgetAmount / (n : ℚ)) →
          ∃ c ∈ e.categoryBreakdown,
            c.categoryId = cb.categoryId ∧ c.dailyLimit = cb.budgetAmount / (n : ℚ)
            ∧ c.spent = sumAmounts (catTxns (txnsOnDay txns d) cb.categoryId)) := by
  refine ⟨_, history_dailyData_get tb cbs txns n cur today d h1 h2, ?_, ?_⟩
  · intro c hc
    rw [show (historyDayEntry tb cbs txns n cur today (if cur then today else n)
        d).categoryBreakdown
      = (cbs.map (fun cb =>
          ({ categoryId := cb.categoryId
             dailyLimit := cb.budgetAmount / (n : ℚ)
             spent := sumAmounts (catTxns (txnsOnDay txns d) cb.categoryId)
             remaining := cb.budgetAmount / (n : ℚ)
               - sumAmounts (catTxns (txnsOnDay txns d) cb.categoryId)
             status := dailyStatus (sumAmounts (catTxns (txnsOnDay txns d) cb.categoryId))
               (cb.budgetAmount / (n : ℚ)) } : CatDayEntry))).filter
          (fun x => decide (0 < x.spent) || decide (0 < x.dailyLimit)) from rfl] at hc
    obtain ⟨hmem, hp⟩ := List.mem_filter.mp hc
    obtain ⟨cb, hcb, hfc⟩ := List.mem_map.mp hmem
    subst hfc
    simp only [Bool.or_eq_true, decide_eq_true_eq] at hp
    exact ⟨cb, hcb, rfl, rfl, rfl, hp⟩
  · intro cb hcb hpos
    refine ⟨_, List.mem_filter.mpr ⟨List.mem_map_of_mem _ hcb, ?_⟩, rfl, rfl, rfl⟩
    simpa [Bool.or_eq_true, decide_eq_true_eq] using hpos

/-- Witness for `category_breakdown_members` on a concrete two-day month
with one budgeted category. -/
theorem category_breakdown_members_witness :
    ∃ e, (dailyBudgetHistory 2 [⟨1, 2⟩] [⟨2, 1, 1⟩] 2 false 1).dailyData[1 - 1]? = some e
      ∧ (∀ c ∈ e.categoryBreakdown, ∃ cb ∈ [(⟨1, 2⟩ : CategoryBudget)],
          c.categoryId = cb.categoryId
          ∧ c.dailyLimit = cb.budgetAmount / (2 : ℚ)
          ∧ c.spent = sumAmounts (catTxns (txnsOnDay [⟨2, 1, 1⟩] 1) cb.categoryId)
          ∧ (0 < c.spent ∨ 0 < c.dailyLimit))
      ∧ (∀ cb ∈ [(⟨1, 2⟩ : CategoryBudget)],
          (0 < sumAmounts (catTxns (txnsOnDay [⟨2, 1, 1⟩] 1) cb.categoryId)
            ∨ 0 < cb.budgetAmount / (2 : ℚ)) →
          ∃ c ∈ e.categoryBreakdown,
            c.categoryId = cb.categoryId ∧ c.dailyLimit = cb.budgetAmount / (2 : ℚ)
            ∧ c.spent = sumAmounts (catTxns (txnsOnDay [⟨2, 1, 1⟩] 1) cb.categoryId)) :=
  category_breakdown_members 2 [⟨1, 2⟩] [⟨2, 1, 1⟩] 2 1 1 false (by norm_num) (by norm_num)

/-- C4 (amended): when no transaction of the month is dated strictly before
day `d`, the history's adjusted daily limit at `d` is
`totalBudget / (daysInMonth − d + 1)`; this coincides with the flat average
`totalBudget / daysInMonth` when `d = 1`. -/
theorem no_prior_spending_limit (tb : ℚ) (cbs : List CategoryBudget) (txns : List Txn)
    (n today d : ℕ) (cur : Bool) (h1 : 1 ≤ d) (h2 : d ≤ n)
    (hno : ∀ t ∈ txns, ¬ t.day < d) :
    ∃ e, (dailyBudgetHistory tb cbs txns n cur today).dailyData[d - 1]? = some e
      ∧ e.dailyLimit = tb / ((n : ℚ) - d + 1)
      ∧ (d = 1 → e.dailyLimit = tb / (n : ℚ)) := by
  have hsb : spentBefore txns d = 0 := by
    unfold spentBefore sumAmounts
    rw [List.filter_eq_nil_iff.mpr (fun t ht => by simpa using hno t ht)]
    rfl
  have hlim := historyDayEntry_dailyLimit tb cbs txns n cur today
    (if cur then today else n) d h2
  rw [hsb, sub_zero] at hlim
  refine ⟨_, history_dailyData_get tb cbs txns n cur today d h1 h2, hlim, ?_⟩
  intro hd
  subst hd
  rw [hlim]
  norm_num

/-- Witness for `no_prior_spending_limit` on day 1 of an empty two-day
month. -/
theorem no_prior_spending_limit_witness :
    ∃ e, (dailyBudgetHistory 2 [] [] 2 false 1).dailyData[1 - 1]? = some e
      ∧ e.dailyLimit = 2 / ((2 : ℚ) - 1 + 1)
      ∧ (1 = 1 → e.dailyLimit = 2 / (2 : ℚ)) :=
  no_prior_spending_limit 2 [] [] 2 1 1 false (by norm_num) (by norm_num)
    (by intro t ht; cases ht)

/-- C5: the sum of `dailyData[d].actualSpent` over all days of the month
equals the reported `totalSpent` — day-bucketing partitions the month's
transactions (every transaction's day lies in 1..daysInMonth by the month
date-range query). -/
theorem history_actual_spent_partition (tb : ℚ) (cbs : List CategoryBudget)
    (txns : List Txn) (n today : ℕ) (cur : Bool)
    (h : ∀ t ∈ txns, 1 ≤ t.day ∧ t.day ≤ n) :
    ((dailyBudgetHistory tb cbs txns n cur today).dailyData.map
        (fun e => e.actualSpent)).sum
      = (dailyBudgetHistory tb cbs txns n cur today).totalSpent := by
  have hcomp : ((fun e => e.actualSpent) ∘ fun i =>
      historyDayEntry tb cbs txns n cur today (if cur then today else n) (i + 1))
      = fun i => spentOnDay txns (i + 1) := rfl
  show (((List.range n).map fun i =>
      historyDayEntry tb cbs txns n cur today (if cur then today else n) (i + 1)).map
        fun e => e.actualSpent).sum = sumAmounts txns
  rw [List.map_map, hcomp, sum_spentOnDay_range txns n h]

/-- Witness for `history_actual_spent_partition` on a two-day month with
one day-1 expense. -/
theorem history_actual_spent_partition_witness :
    ((dailyBudgetHistory 2 [] [⟨2, 1, 1⟩] 2 false 1).dailyData.map
        (fun e => e.actualSpent)).sum
      = (dailyBudgetHistory 2 [] [⟨2, 1, 1⟩] 2 false 1).totalSpent :=
  history_actual_spent_partition 2 [] [⟨2, 1, 1⟩] 2 1 false
    (by
      intro t ht
      rw [List.mem_singleton] at ht
      subst ht
      exact ⟨le_refl 1, one_le_two⟩)

/-- C7 (amended): the history never rejects a month (always HTTP 200);
`isToday` holds exactly on today's date of the real current month; and for
ANY non-current month — past or future alike — every day is classified as
past (`isPastDay = true`, `isToday = false`), because the handler defaults
`currentDay` to `daysInMonth` whenever the requested month is not the
current one. -/
theorem day_classification (tb : ℚ) (cbs : List CategoryBudget) (txns : List Txn)
    (ty tm cy cm today n : ℕ) :
    (dailyBudgetHistoryRoute (some (tb, cbs)) txns ty tm cy cm today n).httpStatus = 200
    ∧ ∀ e ∈ (dailyBudgetHistoryRoute (some (tb, cbs)) txns ty tm cy cm today
        n).payload.dailyData,
        (e.isToday = true ↔ ty = cy ∧ tm = cm ∧ e.day = today)
        ∧ (¬(ty = cy ∧ tm = cm) → e.isPastDay = true ∧ e.isToday = false) := by
  refine ⟨rfl, ?_⟩
  intro e he
  have hdd : (dailyBudgetHistoryRoute (some (tb, cbs)) txns ty tm cy cm today
      n).payload.dailyData
      = (List.range n).map (fun i =>
          historyDayEntry tb cbs txns n (ty == cy && tm == cm) today
            (if (ty == cy && tm == cm) then today else n) (i + 1)) := rfl
  rw [hdd] at he
  obtain ⟨i, hi, rfl⟩ := List.mem_map.mp he
  have hin := List.mem_range.mp hi
  constructor
  · show ((ty == cy && tm == cm) && (i + 1 == today)) = true ↔ _
    simp [Bool.and_eq_true, beq_iff_eq]
    tauto
  · intro hne
    have hb : (ty == cy && tm == cm) = false := by
      refine Bool.eq_false_iff.mpr (fun hbt => hne ?_)
      simp only [Bool.and_eq_true, beq_iff_eq] at hbt
      exact hbt
    constructor
    · show decide ((i + 1) ≤ (if (ty == cy && tm == cm) then today else n)) = true
      rw [hb]
      simp
      omega
    · show ((ty == cy && tm == cm) && (i + 1 == today)) = false
      rw [hb]
      simp

/-- Witness for `day_classification` on a future month (2025-11 requested
while the current month is 2025-10). -/
theorem day_classification_witness :
    (dailyBudgetHistoryRoute (some (30, [])) [] 2025 11 2025 10 15 30).httpStatus = 200
    ∧ ∀ e ∈ (dailyBudgetHistoryRoute (some (30, [])) [] 2025 11 2025 10 15
        30).payload.dailyData,
        (e.isToday = true ↔ 2025 = 2025 ∧ 11 = 10 ∧ e.day = 15)
        ∧ (¬(2025 = 2025 ∧ 11 = 10) → e.isPastDay = true ∧ e.isToday = false) :=
  day_classification 30 [] [] 2025 11 2025 10 15 30

/-- If some requested category id is not among the caller's (distinct)
category ids, the ownership check's `findMany` result has strictly fewer
elements than the request list. -/
theorem filter_mem_length_ne (owned ids : List ℕ) (hnd : owned.Nodup)
    (c : ℕ) (hc : c ∈ ids) (hco : c ∉ owned) :
    (owned.filter (fun x => decide (x ∈ ids))).length ≠ ids.length := by
  have hfnd : (owned.filter (fun x => decide (x ∈ ids))).Nodup := hnd.filter _
  have hsub : (owned.filter (fun x => decide (x ∈ ids))).toFinset
      ⊆ ids.toFinset.erase c := by
    intro x hx
    rw [List.mem_toFinset, List.mem_filter, decide_eq_true_eq] at hx
    refine Finset.mem_erase.mpr ⟨?_, List.mem_toFinset.mpr hx.2⟩
    intro hxc
    exact hco (hxc ▸ hx.1)
  have hlen : (owned.filter (fun x => decide (x ∈ ids))).length
      = (owned.filter (fun x => decide (x ∈ ids))).toFinset.card :=
    (List.toFinset_card_of_nodup hfnd).symm
  have hle : (owned.filter (fun x => decide (x ∈ ids))).toFinset.card
      ≤ (ids.toFinset.erase c).card := Finset.card_le_card hsub
  have herase : (ids.toFinset.erase c).card = ids.toFinset.card - 1 :=
    Finset.card_erase_of_mem (List.mem_toFinset.mpr hc)
  have hcardle : ids.toFinset.card ≤ ids.length := ids.toFinset_card_le
  have hcardpos : 1 ≤ ids.toFinset.card :=
    Finset.card_pos.mpr ⟨c, List.mem_toFinset.mpr hc⟩
  omega

/-- When the requested category ids are distinct and all owned by the
caller, the ownership check's `findMany` result has exactly as many elements
as the request list. -/
theorem filter_mem_length_eq (owned ids : List ℕ) (hnd : owned.Nodup)
    (hids : ids.Nodup) (hsub : ∀ c ∈ ids, c ∈ owned) :
    (owned.filter (fun x => decide (x ∈ ids))).length = ids.length := by
  have hperm : List.Perm (owned.filter (fun x => decide (x ∈ ids))) ids := by
    rw [List.perm_ext_iff_of_nodup (hnd.filter _) hids]
    intro a
    rw [List.mem_filter, decide_eq_true_eq]
    exact ⟨fun h => h.2, fun h => ⟨hsub a h, h⟩⟩
  exact hperm.length_eq

/-- C9: `POST /budgets` responds 400 — and leaves the store unchanged —
whenever the supplied category budgets sum to more than `totalBudget` or
some supplied category id does not belong to the caller. -/
theorem create_budget_rejects (owned : List ℕ) (store : List StoredBudget)
    (userId : ℕ) (month : String) (totalBudget : ℚ) (cbs : List CategoryBudget)
    (hnd : owned.Nodup)
    (h : totalBudget < (cbs.map (fun cb => cb.budgetAmount)).sum
      ∨ ∃ cb ∈ cbs, cb.categoryId ∉ owned) :
    ∃ msg, createBudget owned store userId month totalBudget cbs
      = (RouteResult.badRequest msg, store) := by
  simp only [createBudget]
  rcases h with hsum | ⟨cb, hcb, hown⟩
  · split_ifs
    all_goals exact ⟨_, rfl⟩
  · have hne := filter_mem_length_ne owned (cbs.map (fun x => x.categoryId)) hnd
      cb.categoryId (List.mem_map_of_mem _ hcb) hown
    split_ifs
    all_goals exact ⟨_, rfl⟩

/-- Witness for `create_budget_rejects`: category budgets summing to 50
against a total budget of 40 are rejected and nothing is written. -/
theorem create_budget_rejects_witness :
    ∃ msg, createBudget [1] [] 7 "2025-10" 40 [⟨1, 50⟩]
      = (RouteResult.badRequest msg, []) :=
  create_budget_rejects [1] [] 7 "2025-10" 40 [⟨1, 50⟩] (List.nodup_singleton 1)
    (Or.inl (by norm_num [sumAmounts]))

/-- C10: `PUT /budgets/:month` on an existing budget with owned (distinct)
category ids always succeeds and persists the supplied `totalBudget` and
category budgets — the statement imposes NO relation between the sum of the
supplied `budgetAmount`s and `totalBudget`, so the category-sum invariant is
not enforced on the update path. -/
theorem update_budget_ignores_sum (owned : List ℕ) (store : List StoredBudget)
    (userId : ℕ) (month : String) (totalBudget : ℚ) (cbs : List CategoryBudget)
    (hnd : owned.Nodup) (hids : (cbs.map (fun cb => cb.categoryId)).Nodup)
    (hown : ∀ cb ∈ cbs, cb.categoryId ∈ owned)
    (hex : ∃ b ∈ store, b.userId = userId ∧ b.month = month) :
    updateBudget owned store userId month (some totalBudget) (some cbs)
      = (RouteResult.ok,
         store.map (fun b =>
           if b.userId == userId && b.month == month then
             { b with totalBudget := totalBudget, categoryBudgets := cbs }
           else b)) := by
  obtain ⟨b0, hb0, hbu, hbm⟩ := hex
  have hfind : (store.find? (fun b => b.userId == userId && b.month == month)).isSome := by
    rw [List.find?_isSome]
    exact ⟨b0, hb0, by simp [hbu, hbm]⟩
  obtain ⟨bf, hbf⟩ := Option.isSome_iff_exists.mp hfind
  unfold updateBudget
  rw [hbf]
  have hlen := filter_mem_length_eq owned (cbs.map (fun cb => cb.categoryId)) hnd hids
    (by
      intro c hcmem
      obtain ⟨cb, hcb, rfl⟩ := List.mem_map.mp hcmem
      exact hown cb hcb)
  simp only [hlen, beq_self_eq_true, if_true, Option.getD_some]

/-- Witness for `update_budget_ignores_sum`: updating an existing budget to
`totalBudget = 10` with a category budget of 100 (sum far above the total)
succeeds and persists the excessive category budget. -/
theorem update_budget_ignores_sum_witness :
    updateBudget [1] [⟨7, "2025-10", 50, []⟩] 7 "2025-10" (some 10) (some [⟨1, 100⟩])
      = (RouteResult.ok, [⟨7, "2025-10", 10, [⟨1, 100⟩]⟩])
    ∧ (10 : ℚ) < ([(⟨1, 100⟩ : CategoryBudget)].map (fun cb => cb.budgetAmount)).sum := by
  constructor
  · have h := update_budget_ignores_sum [1] [⟨7, "2025-10", 50, []⟩] 7 "2025-10"
      10 [⟨1, 100⟩] (List.nodup_singleton 1) (by simp) (by simp)
      ⟨⟨7, "2025-10", 50, []⟩, List.mem_singleton.mpr rfl, rfl, rfl⟩
    rw [h]
    rfl
  · norm_num

end Budgetly
